import Mathlib

/-!
Shallow embedding of the gas-agent library (Google Apps Script edition,
src/gas/Code.gs), covering the provider layer, the agent layer and the
registry (class GASAgent), together with theorems checking the
natural-language specification against this embedding.

Modelling conventions:
- JavaScript numbers are modelled as rationals (the code only compares and
  defaults them; NaN corners are outside the modelled scope).
- Absent object fields are modelled with Option; JavaScript truthiness of a
  string is non-emptiness, of a number is being non-zero, and an array is
  always truthy.
- The network boundary (UrlFetchApp.fetch followed by JSON.parse) is an
  oracle: either the pair throws, or it yields a parsed result object.
- A thrown JavaScript exception is modelled as the error branch of Except,
  carrying the exception message.
-/

namespace GasAgent

/-- A chat message, as in the Message shape of src/src/types.ts. -/
structure Message where
  role : String
  content : String
deriving DecidableEq, Repr

/-- The per-agent configuration object (ProviderConfig in src/src/types.ts,
the config parameter of GASAgent.createAgent in src/gas/Code.gs). -/
structure ProviderConfig where
  apiKey : Option String := none
  model : Option String := none
  systemPrompt : Option String := none
  temperature : Option ℚ := none
  max_tokens : Option ℚ := none
  messages : Option (List Message) := none
  baseURL : Option String := none
  referer : Option String := none
  title : Option String := none
deriving DecidableEq

/-- The uniform response shape every provider returns
(ProviderResponse in src/src/types.ts): status plus optional
response text and optional error text. -/
structure ProviderResponse where
  status : Nat
  response : Option String := none
  error : Option String := none
deriving DecidableEq, Repr

/-- JavaScript truthiness of a possibly absent string value:
undefined and the empty string are falsy. -/
def strTruthy : Option String → Bool
  | none => false
  | some s => s ≠ ""

/-- JavaScript expression a or-else d for a possibly absent string a and a
string literal default d, as in config.model or-else a default model name. -/
def jsOrStr (a : Option String) (d : String) : String :=
  match a with
  | none => d
  | some s => if s = "" then d else s

/-- JavaScript expression a or-else b where both sides are possibly absent
strings, as in config.apiKey or-else a script-property lookup. -/
def jsOrStrOpt (a b : Option String) : Option String :=
  if strTruthy a then a else b

/-- JavaScript expression a or-else d for a possibly absent number a:
undefined and 0 are falsy, so both fall back to the default d. -/
def jsOrNum (a : Option ℚ) (d : ℚ) : ℚ :=
  match a with
  | none => d
  | some v => if v = 0 then d else v

/-- JavaScript expression a or-else d for a possibly absent array a: an
array value is always truthy (even when empty), so only undefined falls
back to the default. -/
def jsOrArr (a : Option (List Message)) (d : List Message) : List Message :=
  match a with
  | none => d
  | some l => l

/-- The request body sent by the OpenAI-compatible providers
(model, messages, temperature, max_tokens). -/
structure ChatPayload where
  model : String
  messages : List Message
  temperature : ℚ
  max_tokens : ℚ
deriving DecidableEq, Repr

/-- Request body of OpenAIProvider.generateResponse in src/gas/Code.gs
(lines 219-224): the messages field is the literal one-element list built
from the input; config.messages is not consulted. -/
def openAIPayload (input : String) (config : ProviderConfig) : ChatPayload :=
  { model := jsOrStr config.model "gpt-3.5-turbo"
    messages := [⟨"user", input⟩]
    temperature := jsOrNum config.temperature (7/10)
    max_tokens := jsOrNum config.max_tokens 100 }

/-- Request body of DeepSeekProvider.generateResponse in src/gas/Code.gs
(lines 380-385). -/
def deepSeekPayload (input : String) (config : ProviderConfig) : ChatPayload :=
  { model := jsOrStr config.model "deepseek-chat"
    messages := [⟨"user", input⟩]
    temperature := jsOrNum config.temperature (7/10)
    max_tokens := jsOrNum config.max_tokens 100 }

/-- Request body of OpenRouterProvider.generateResponse in src/gas/Code.gs
(lines 430-435). -/
def openRouterPayload (input : String) (config : ProviderConfig) : ChatPayload :=
  { model := jsOrStr config.model "openai/gpt-3.5-turbo"
    messages := [⟨"user", input⟩]
    temperature := jsOrNum config.temperature (7/10)
    max_tokens := jsOrNum config.max_tokens 100 }

/-- Request body of GroqProvider.generateResponse in src/gas/Code.gs
(lines 482-487). -/
def groqPayload (input : String) (config : ProviderConfig) : ChatPayload :=
  { model := jsOrStr config.model "mixtral-8x7b-32768"
    messages := [⟨"user", input⟩]
    temperature := jsOrNum config.temperature (7/10)
    max_tokens := jsOrNum config.max_tokens 100 }

/-- Request body of OpenAILikeProvider.generateResponse in src/gas/Code.gs
(lines 273-278): the only provider of the family whose messages field reads
config.messages, falling back to the one-element list from the input. -/
def openAILikePayload (input : String) (config : ProviderConfig) : ChatPayload :=
  { model := jsOrStr config.model "gpt-3.5-turbo"
    messages := jsOrArr config.messages [⟨"user", input⟩]
    temperature := jsOrNum config.temperature (7/10)
    max_tokens := jsOrNum config.max_tokens 100 }

/-- The generationConfig part of the Google AI request body. -/
structure GoogleGenerationConfig where
  temperature : ℚ
  maxOutputTokens : ℚ
deriving DecidableEq, Repr

/-- Request body of GoogleAIProvider.generateResponse in src/gas/Code.gs
(lines 325-335): contents wrapping the raw input text, plus a
generationConfig with the same defaulting pattern as the chat providers. -/
structure GooglePayload where
  contentsText : String
  generationConfig : GoogleGenerationConfig
deriving DecidableEq, Repr

/-- Builds the Google AI request body from src/gas/Code.gs lines 325-335. -/
def googlePayload (input : String) (config : ProviderConfig) : GooglePayload :=
  { contentsText := input
    generationConfig :=
      { temperature := jsOrNum config.temperature (7/10)
        maxOutputTokens := jsOrNum config.max_tokens 100 } }

/-- The error object an upstream payload may carry
(result.error, with an error.message used in the 500 branch). A present
error field is modelled as a truthy object, matching the object-valued
error envelopes of the upstream APIs. -/
structure UpstreamError where
  message : String
deriving DecidableEq, Repr

/-- The message object inside one element of result.choices; content is
absent or a string. -/
structure UpstreamChatMessage where
  content : Option String := none
deriving DecidableEq, Repr

/-- One element of result.choices. -/
structure UpstreamChoice where
  message : Option UpstreamChatMessage := none
deriving DecidableEq, Repr

/-- The parsed upstream body for the OpenAI-compatible providers:
an optional error field and an optional choices array. -/
structure ChatResult where
  error : Option UpstreamError := none
  choices : Option (List UpstreamChoice) := none
deriving DecidableEq, Repr

/-- One element of candidates at i dot content dot parts in the Google AI
response shape; text is absent or a string. -/
structure UpstreamPart where
  text : Option String := none
deriving DecidableEq, Repr

/-- The content object inside one element of result.candidates. -/
structure UpstreamContent where
  parts : Option (List UpstreamPart) := none
deriving DecidableEq, Repr

/-- One element of result.candidates. -/
structure UpstreamCandidate where
  content : Option UpstreamContent := none
deriving DecidableEq, Repr

/-- The parsed upstream body for the Google AI provider. -/
structure GenResult where
  error : Option UpstreamError := none
  candidates : Option (List UpstreamCandidate) := none
deriving DecidableEq, Repr

/-- Outcome of the fetch-then-parse pair at the network boundary: either
one of the two throws (network failure or a non-JSON body), or a parsed
result object of type α is produced. -/
inductive FetchOutcome (α : Type) where
  | throws (msg : String)
  | parsed (result : α)
deriving DecidableEq, Repr

/-- The environment behaviour for one provider invocation: what the
fetch-then-parse pair yields, for whichever wire shape the provider uses. -/
structure Oracle where
  chat : FetchOutcome ChatResult
  gen : FetchOutcome GenResult
deriving DecidableEq, Repr

/-- JavaScript evaluation of result.choices at 0 optional-chained through
message and content. When the choices field is absent the indexing step
itself throws a TypeError (the optional chain starts only after the
indexing), which the surrounding try-catch turns into a 500; an empty
array or an absent link after the first question mark yields undefined. -/
def extractChatText (r : ChatResult) : Except String (Option String) :=
  match r.choices with
  | none => .error "Cannot read properties of undefined (reading 0)"
  | some cs =>
    .ok (match cs.head? with
      | none => none
      | some c => c.message.bind (fun m => m.content))

/-- JavaScript evaluation of result.candidates at 0 optional-chained
through content, parts at 0 and text. Absent candidates makes the first
indexing throw; a present content with absent parts makes the second
indexing throw (the optional chain does not guard the indexing of an
undefined parts field); otherwise absent links yield undefined. -/
def extractGenText (r : GenResult) : Except String (Option String) :=
  match r.candidates with
  | none => .error "Cannot read properties of undefined (reading 0)"
  | some cs =>
    match cs.head? with
    | none => .ok none
    | some cand =>
      match cand.content with
      | none => .ok none
      | some content =>
        match content.parts with
        | none => .error "Cannot read properties of undefined (reading 0)"
        | some parts =>
          .ok (match parts.head? with
            | none => none
            | some p => p.text)

/-- The six provider kinds registered in the GASAgent constructor. -/
inductive ProviderKind where
  | OpenAI
  | GoogleAI
  | DeepSeek
  | OpenRouter
  | Groq
  | OpenAILike
deriving DecidableEq, Repr

/-- The script-property name each provider resolves its key from. -/
def secretName : ProviderKind → String
  | .OpenAI => "OPENAI_API_KEY"
  | .GoogleAI => "GOOGLEAI_API_KEY"
  | .DeepSeek => "DEEPSEEK_API_KEY"
  | .OpenRouter => "OPENROUTER_API_KEY"
  | .Groq => "GROQ_API_KEY"
  | .OpenAILike => "OPENAI_LIKE_API_KEY"

/-- The missing-key error message each provider returns, verbatim from
src/gas/Code.gs. -/
def missingKeyMsg : ProviderKind → String
  | .OpenAI => "OpenAI API key is required."
  | .GoogleAI => "Google AI API key is required."
  | .DeepSeek => "DeepSeek API key is required."
  | .OpenRouter => "OpenRouter API key is required."
  | .Groq => "Groq API key is required."
  | .OpenAILike => "API key is required."

/-- The leading text of the upstream-error 500 message of each provider,
verbatim from src/gas/Code.gs. -/
def apiErrorLead : ProviderKind → String
  | .OpenAI => "OpenAI API error: "
  | .GoogleAI => "Google AI API error: "
  | .DeepSeek => "DeepSeek API error: "
  | .OpenRouter => "OpenRouter API error: "
  | .Groq => "Groq API error: "
  | .OpenAILike => "API error: "

/-- The leading text of the catch-branch 500 message of each provider,
verbatim from src/gas/Code.gs. -/
def providerErrorLead : ProviderKind → String
  | .OpenAI => "OpenAIProvider error: "
  | .GoogleAI => "GoogleAIProvider error: "
  | .DeepSeek => "DeepSeekProvider error: "
  | .OpenRouter => "OpenRouterProvider error: "
  | .Groq => "GroqProvider error: "
  | .OpenAILike => "OpenAILikeProvider error: "

/-- The fallback response text each provider substitutes when the success
envelope carries no extractable text, verbatim from src/gas/Code.gs. -/
def fallbackText : ProviderKind → String
  | .OpenAI => "No response from OpenAI."
  | .GoogleAI => "No response from Google AI."
  | .DeepSeek => "No response from DeepSeek."
  | .OpenRouter => "No response from OpenRouter."
  | .Groq => "No response from Groq."
  | .OpenAILike => "No response from API."

/-- The request each provider hands to the transport, paired by wire
shape. -/
inductive SentRequest where
  | chat (payload : ChatPayload)
  | gen (payload : GooglePayload)
deriving DecidableEq, Repr

/-- The observable result of one generateResponse call: the response
handed back, and the request sent over the network when a fetch was
attempted (none when the call returned before reaching the transport). -/
structure Attempt where
  resp : ProviderResponse
  request : Option SentRequest := none
deriving DecidableEq, Repr

/-- The request body each chat-shaped provider builds, from
src/gas/Code.gs. -/
def chatPayloadOf (k : ProviderKind) (input : String) (config : ProviderConfig) : ChatPayload :=
  match k with
  | .OpenAI => openAIPayload input config
  | .DeepSeek => deepSeekPayload input config
  | .OpenRouter => openRouterPayload input config
  | .Groq => groqPayload input config
  | .OpenAILike => openAILikePayload input config
  | .GoogleAI => openAIPayload input config

/-- Shared tail of the five chat-shaped generateResponse bodies after the
key (and, for OpenAILike, base-URL) checks: build the payload, fetch,
parse, route the error envelope, extract the text, fall back when the
extracted text is absent or empty. -/
def chatCall (k : ProviderKind) (input : String) (config : ProviderConfig)
    (outcome : FetchOutcome ChatResult) : Attempt :=
  let payload := chatPayloadOf k input config
  match outcome with
  | .throws m =>
    { resp := { status := 500, error := some (providerErrorLead k ++ m) }
      request := some (.chat payload) }
  | .parsed r =>
    match r.error with
    | some e =>
      { resp := { status := 500, error := some (apiErrorLead k ++ e.message) }
        request := some (.chat payload) }
    | none =>
      match extractChatText r with
      | .error m =>
        { resp := { status := 500, error := some (providerErrorLead k ++ m) }
          request := some (.chat payload) }
      | .ok t =>
        { resp := { status := 200, response := some (jsOrStr t (fallbackText k)) }
          request := some (.chat payload) }

/-- GoogleAIProvider.generateResponse body after the key check
(src/gas/Code.gs lines 322-358). -/
def googleCall (input : String) (config : ProviderConfig)
    (outcome : FetchOutcome GenResult) : Attempt :=
  let payload := googlePayload input config
  match outcome with
  | .throws m =>
    { resp := { status := 500, error := some ("GoogleAIProvider error: " ++ m) }
      request := some (.gen payload) }
  | .parsed r =>
    match r.error with
    | some e =>
      { resp := { status := 500, error := some ("Google AI API error: " ++ e.message) }
        request := some (.gen payload) }
    | none =>
      match extractGenText r with
      | .error m =>
        { resp := { status := 500, error := some ("GoogleAIProvider error: " ++ m) }
          request := some (.gen payload) }
      | .ok t =>
        { resp := { status := 200, response := some (jsOrStr t "No response from Google AI.") }
          request := some (.gen payload) }

/-- generateResponse of the provider of kind k (src/gas/Code.gs): resolve
the key from config.apiKey or the script properties, reject with 400 when
no truthy key is found; OpenAILike additionally rejects a missing
config.baseURL with 400; then run the wire call. -/
def generateResponse (k : ProviderKind) (input : String) (config : ProviderConfig)
    (secrets : String → Option String) (oracle : Oracle) : Attempt :=
  let apiKey := jsOrStrOpt config.apiKey (secrets (secretName k))
  if strTruthy apiKey = false then
    { resp := { status := 400, error := some (missingKeyMsg k) } }
  else
    match k with
    | .GoogleAI => googleCall input config oracle.gen
    | .OpenAILike =>
      if strTruthy config.baseURL = false then
        { resp := { status := 400, error := some "Base URL is required for OpenAILike provider." } }
      else
        chatCall .OpenAILike input config oracle.chat
    | k => chatCall k input config oracle.chat

/-- A JavaScript value passed where a string is expected: either an actual
string or some non-string value. The validation in query and createAgent
only inspects truthiness and typeof, so non-string values need no further
structure. -/
inductive JSInput where
  | str (s : String)
  | nonString
deriving DecidableEq, Repr

/-- The check not input or typeof input different from string, from
src/gas/Code.gs line 136: passes exactly for non-empty strings. -/
def validInput : JSInput → Bool
  | .str s => s ≠ ""
  | .nonString => false

/-- The string content of an input, for describing the message appended to
history (only consulted on inputs that passed validation). -/
def inputStr : JSInput → String
  | .str s => s
  | .nonString => ""

/-- The mutable per-agent conversation state captured by the agent object
closure in src/gas/Code.gs: messageHistory and systemPrompt. -/
structure AgentState where
  messageHistory : List Message
  systemPrompt : String
deriving DecidableEq, Repr

/-- The message list assembled by query (src/gas/Code.gs lines 142-153):
a system message when the system prompt is truthy, then the stored
history, then the current input as a user message. -/
def assembleMessages (st : AgentState) (inputS : String) : List Message :=
  (if st.systemPrompt ≠ "" then [⟨"system", st.systemPrompt⟩] else [])
    ++ st.messageHistory ++ [⟨"user", inputS⟩]

/-- Observable outcome of one query call: the returned response, the
agent state afterwards, and whether the provider was invoked. -/
structure QueryStep where
  resp : ProviderResponse
  state : AgentState
  invoked : Bool
deriving DecidableEq, Repr

/-- The fixed 400 response returned for invalid input. -/
def invalidInputResponse : ProviderResponse :=
  { status := 400, error := some "Input must be a non-empty string." }

/-- agent.query of src/gas/Code.gs (lines 135-173), with the delegation
to the bound provider abstracted as a delegate that receives the validated
input string and the assembled message list and either returns a response
or throws (the error branch). Validation happens before the try block;
inside it the assembled list is merged into the config and the provider is
called; on a 200 response with keepHistory the user and assistant messages
are pushed together; a thrown exception is converted to a 500 response and
leaves the state untouched. The assistant message stores the response
field of the returned object (a string on every 200 response of the
embedded providers; an absent field is modelled as the empty string). -/
def queryWith (st : AgentState) (input : JSInput) (keepHistory : Bool)
    (delegate : String → List Message → Except String ProviderResponse) : QueryStep :=
  if validInput input = false then
    { resp := invalidInputResponse, state := st, invoked := false }
  else
    let s := inputStr input
    let msgs := assembleMessages st s
    match delegate s msgs with
    | .error e =>
      { resp := { status := 500, error := some ("Error during query execution: " ++ e) }
        state := st, invoked := true }
    | .ok r =>
      if r.status = 200 ∧ keepHistory = true then
        { resp := r
          state := { st with
            messageHistory := st.messageHistory
              ++ [⟨"user", s⟩, ⟨"assistant", r.response.getD ""⟩] }
          invoked := true }
      else
        { resp := r, state := st, invoked := true }

/-- agent.query with the delegate instantiated to the real bound provider
of kind k: the assembled messages are merged into the creation-time config
(the spread of config with messages overridden, src/gas/Code.gs line 156)
and generateResponse is called; the embedded providers never throw. -/
def agentQuery (k : ProviderKind) (config : ProviderConfig)
    (secrets : String → Option String) (oracle : Oracle)
    (st : AgentState) (input : JSInput) (keepHistory : Bool) : QueryStep :=
  queryWith st input keepHistory (fun s msgs =>
    .ok (generateResponse k s { config with messages := some msgs } secrets oracle).resp)

/-- One operation of the public agent surface, for stating history
invariants over arbitrary call sequences. Each query carries the
environment behaviour for that call. setSystemPrompt with a non-string
argument throws before assigning, leaving the state unchanged. -/
inductive AgentOp where
  | query (input : JSInput) (keepHistory : Bool) (oracle : Oracle)
  | clearHistory
  | setSystemPrompt (prompt : JSInput)
  | getHistory
deriving Repr

/-- Effect of one public operation on the agent state
(src/gas/Code.gs lines 77-173). -/
def applyOp (k : ProviderKind) (config : ProviderConfig)
    (secrets : String → Option String) (st : AgentState) : AgentOp → AgentState
  | .query input keepHistory oracle => (agentQuery k config secrets oracle st input keepHistory).state
  | .clearHistory => { st with messageHistory := [] }
  | .setSystemPrompt p =>
    match p with
    | .str s => { st with systemPrompt := s }
    | .nonString => st
  | .getHistory => st

/-- The agent state at creation: empty history, system prompt from
config.systemPrompt or-else the empty string (src/gas/Code.gs lines
62-65). -/
def initialAgentState (config : ProviderConfig) : AgentState :=
  { messageHistory := [], systemPrompt := jsOrStr config.systemPrompt "" }

/-- The agent state after running a sequence of public operations from
creation. -/
def runOps (k : ProviderKind) (config : ProviderConfig)
    (secrets : String → Option String) (ops : List AgentOp) : AgentState :=
  ops.foldl (applyOp k config secrets) (initialAgentState config)

/-- The property names every plain JavaScript object literal inherits from
the base object prototype. Reading one of these keys on an object literal
with no own property of that name yields the inherited function or object,
which is truthy. -/
def objectProtoKeys : List String :=
  ["constructor", "hasOwnProperty", "isPrototypeOf", "propertyIsEnumerable",
   "toLocaleString", "toString", "valueOf",
   "__defineGetter__", "__defineSetter__", "__lookupGetter__", "__lookupSetter__",
   "__proto__"]

/-- Truthiness of reading key on a plain object literal whose own stored
values are all truthy objects (the agents and providers registries of
GASAgent): the read is truthy when the key is an own property or a
property inherited from the base object prototype. -/
def plainObjTruthy (ownKeys : List String) (key : String) : Bool :=
  ownKeys.contains key || objectProtoKeys.contains key

/-- The six own keys of the providers registry populated in the GASAgent
constructor (src/gas/Code.gs lines 24-31). -/
def providerKindNames : List String :=
  ["OpenAI", "GoogleAI", "DeepSeek", "OpenRouter", "Groq", "OpenAILike"]

/-- Outcome of GASAgent.createAgent: which error is thrown, or creation
with the updated list of registered agent names. -/
inductive CreateResult where
  | invalidArgument
  | duplicateName
  | unknownProvider
  | created (agents : List String)
deriving DecidableEq, Repr

/-- GASAgent.createAgent of src/gas/Code.gs (lines 50-59, 176-177),
tracking the registered agent names: reject a falsy or non-string name,
then throw when the agents registry read is truthy for the name, then
throw when the providers registry read is falsy for the provider name,
else store the agent under the name. Both registries are plain object
literals, so the reads follow plainObjTruthy. -/
def createAgent (agents : List String) (agentName : JSInput)
    (providerName : String) : CreateResult :=
  match agentName with
  | .nonString => .invalidArgument
  | .str s =>
    if s = "" then .invalidArgument
    else if plainObjTruthy agents s then .duplicateName
    else if plainObjTruthy providerKindNames providerName = false then .unknownProvider
    else .created (agents ++ [s])

/-- A heap of message objects and array objects, for the aliasing
behaviour of getHistory. Message objects and arrays live at numeric
references; an array object holds references to message objects. The
messageHistory field of an agent is an array reference. -/
structure Heap where
  msgs : List Message
  arrays : List (List Nat)
deriving DecidableEq, Repr

/-- Reads the message object at a reference. -/
def readMsg (h : Heap) (r : Nat) : Message :=
  h.msgs.getD r ⟨"", ""⟩

/-- Reads the array object at a reference. -/
def readArray (h : Heap) (a : Nat) : List Nat :=
  h.arrays.getD a []

/-- The message sequence an agent whose messageHistory is the array at
reference a currently holds: the stored message objects in order. -/
def viewHistory (h : Heap) (a : Nat) : List Message :=
  (readArray h a).map (readMsg h)

/-- agent.getHistory of src/gas/Code.gs (lines 108-110): the spread
expression allocates a fresh array object holding the same message
references as the messageHistory array, and returns the fresh reference. -/
def getHistoryAlloc (h : Heap) (a : Nat) : Heap × Nat :=
  ({ h with arrays := h.arrays ++ [readArray h a] }, h.arrays.length)

/-- A caller mutating the returned array object itself (replacing the
element reference at an index), as in assigning to an index of the
returned array. -/
def setArrayElem (h : Heap) (a : Nat) (i : Nat) (r : Nat) : Heap :=
  { h with arrays := h.arrays.set a ((readArray h a).set i r) }

/-- A caller mutating a message object in place (assigning to its content
field), reached through a reference taken from the returned array. -/
def setMsgContent (h : Heap) (r : Nat) (c : String) : Heap :=
  { h with msgs := h.msgs.set r { readMsg h r with content := c } }

/-- The response text carried by a response, the empty string when the
field is absent. -/
def respText (r : ProviderResponse) : String := r.response.getD ""

/-- The or-else defaulting on strings never yields the empty string when
the default is non-empty. -/
theorem jsOrStr_ne_empty (t : Option String) (d : String) (hd : d ≠ "") :
    jsOrStr t d ≠ "" := by
  unfold jsOrStr
  cases t with
  | none => exact hd
  | some s =>
    by_cases hs : s = ""
    · simpa [hs] using hd
    · simp [hs]

/-- No provider has an empty fallback string. -/
theorem fallbackText_ne_empty (k : ProviderKind) : fallbackText k ≠ "" := by
  cases k <;> decide

/-- Every 200 response of a chat-shaped provider call carries a response
text of the shape extracted-or-fallback. -/
theorem chatCall_200_response (k : ProviderKind) (input : String)
    (config : ProviderConfig) (out : FetchOutcome ChatResult) :
    (chatCall k input config out).resp.status = 200 →
    ∃ t, (chatCall k input config out).resp.response = some (jsOrStr t (fallbackText k)) := by
  unfold chatCall
  cases out with
  | throws m => simp
  | parsed r =>
    cases he : r.error with
    | some e => simp [he]
    | none =>
      cases hx : extractChatText r with
      | error m => simp [he, hx]
      | ok t => exact fun _ => ⟨t, by simp [he, hx]⟩

/-- Every 200 response of the Google AI call carries a response text of
the shape extracted-or-fallback. -/
theorem googleCall_200_response (input : String) (config : ProviderConfig)
    (out : FetchOutcome GenResult) :
    (googleCall input config out).resp.status = 200 →
    ∃ t, (googleCall input config out).resp.response
      = some (jsOrStr t "No response from Google AI.") := by
  unfold googleCall
  cases out with
  | throws m => simp
  | parsed r =>
    cases he : r.error with
    | some e => simp [he]
    | none =>
      cases hx : extractGenText r with
      | error m => simp [he, hx]
      | ok t => exact fun _ => ⟨t, by simp [he, hx]⟩

/-- A 200 response of any of the six embedded providers has a non-empty
response text: the success branch substitutes a non-empty fallback for an
absent or empty extracted text. -/
theorem generateResponse_200_respText (k : ProviderKind) (input : String)
    (config : ProviderConfig) (secrets : String → Option String) (oracle : Oracle) :
    (generateResponse k input config secrets oracle).resp.status = 200 →
    respText (generateResponse k input config secrets oracle).resp ≠ "" := by
  unfold generateResponse
  by_cases hk : strTruthy (jsOrStrOpt config.apiKey (secrets (secretName k))) = false
  · simp [hk]
  · cases k with
    | GoogleAI =>
      simp only [hk, if_false, Bool.not_eq_false]
      intro h
      obtain ⟨t, ht⟩ := googleCall_200_response input config oracle.gen h
      simp [respText, ht]
      exact jsOrStr_ne_empty t _ (by decide)
    | OpenAILike =>
      by_cases hb : strTruthy config.baseURL = false
      · simp [hk, hb]
      · simp only [hk, hb, if_false, Bool.not_eq_false]
        intro h
        obtain ⟨t, ht⟩ := chatCall_200_response .OpenAILike input config oracle.chat h
        simp [respText, ht]
        exact jsOrStr_ne_empty t _ (fallbackText_ne_empty _)
    | OpenAI =>
      simp only [hk, if_false, Bool.not_eq_false]
      intro h
      obtain ⟨t, ht⟩ := chatCall_200_response .OpenAI input config oracle.chat h
      simp [respText, ht]
      exact jsOrStr_ne_empty t _ (fallbackText_ne_empty _)
    | DeepSeek =>
      simp only [hk, if_false, Bool.not_eq_false]
      intro h
      obtain ⟨t, ht⟩ := chatCall_200_response .DeepSeek input config oracle.chat h
      simp [respText, ht]
      exact jsOrStr_ne_empty t _ (fallbackText_ne_empty _)
    | OpenRouter =>
      simp only [hk, if_false, Bool.not_eq_false]
      intro h
      obtain ⟨t, ht⟩ := chatCall_200_response .OpenRouter input config oracle.chat h
      simp [respText, ht]
      exact jsOrStr_ne_empty t _ (fallbackText_ne_empty _)
    | Groq =>
      simp only [hk, if_false, Bool.not_eq_false]
      intro h
      obtain ⟨t, ht⟩ := chatCall_200_response .Groq input config oracle.chat h
      simp [respText, ht]
      exact jsOrStr_ne_empty t _ (fallbackText_ne_empty _)

/-- A configuration carrying a pre-assembled messages list, for exercising
the messages-precedence behaviour of the providers. -/
def preassembledConfig : ProviderConfig :=
  { apiKey := some "k"
    messages := some [⟨"system", "Be brief."⟩, ⟨"user", "hi"⟩] }

/-- An environment whose fetch throws, for calls where only the sent
request matters. -/
def throwingOracle : Oracle :=
  { chat := .throws "network down", gen := .throws "network down" }

/-- C1: the claim says every OpenAI-family, DeepSeek, OpenRouter, Groq and
custom-endpoint provider sends config.messages when that field is present.
In src/gas/Code.gs only OpenAILikeProvider does: OpenAIProvider,
DeepSeekProvider, OpenRouterProvider and GroqProvider send the one-element
list built from the raw input even though config.messages is present, so
the pre-assembled conversation (system prompt and history) never reaches
these four upstreams. Evaluated here at a concrete config whose messages
field holds a two-element list. -/
theorem C1_gas_request_ignores_config_messages :
    (generateResponse .OpenAI "hi" preassembledConfig (fun _ => none) throwingOracle).request
      = some (.chat { model := "gpt-3.5-turbo", messages := [⟨"user", "hi"⟩],
                      temperature := 7/10, max_tokens := 100 }) ∧
    (generateResponse .DeepSeek "hi" preassembledConfig (fun _ => none) throwingOracle).request
      = some (.chat { model := "deepseek-chat", messages := [⟨"user", "hi"⟩],
                      temperature := 7/10, max_tokens := 100 }) ∧
    (generateResponse .OpenRouter "hi" preassembledConfig (fun _ => none) throwingOracle).request
      = some (.chat { model := "openai/gpt-3.5-turbo", messages := [⟨"user", "hi"⟩],
                      temperature := 7/10, max_tokens := 100 }) ∧
    (generateResponse .Groq "hi" preassembledConfig (fun _ => none) throwingOracle).request
      = some (.chat { model := "mixtral-8x7b-32768", messages := [⟨"user", "hi"⟩],
                      temperature := 7/10, max_tokens := 100 }) ∧
    ([⟨"user", "hi"⟩] : List Message) ≠ [⟨"system", "Be brief."⟩, ⟨"user", "hi"⟩] ∧
    (generateResponse .OpenAILike "hi"
        { preassembledConfig with baseURL := some "https://llm.example" }
        (fun _ => none) throwingOracle).request
      = some (.chat { model := "gpt-3.5-turbo",
                      messages := [⟨"system", "Be brief."⟩, ⟨"user", "hi"⟩],
                      temperature := 7/10, max_tokens := 100 }) :=
  ⟨rfl, rfl, rfl, rfl, by decide, rfl⟩

/-- The temperature each provider of kind k places in its request body. -/
def payloadTemperature (k : ProviderKind) (input : String) (config : ProviderConfig) : ℚ :=
  match k with
  | .GoogleAI => (googlePayload input config).generationConfig.temperature
  | k => (chatPayloadOf k input config).temperature

/-- The token limit each provider of kind k places in its request body
(max_tokens for the chat shapes, maxOutputTokens for Google AI). -/
def payloadMaxTokens (k : ProviderKind) (input : String) (config : ProviderConfig) : ℚ :=
  match k with
  | .GoogleAI => (googlePayload input config).generationConfig.maxOutputTokens
  | k => (chatPayloadOf k input config).max_tokens

/-- C3, counterexample: the claim says a present temperature of 0 and a
present token limit of 0 are used as given. The or-else defaulting in
src/gas/Code.gs treats 0 as falsy, so a configured 0 is replaced by the
defaults 0.7 and 100 in the request body. -/
theorem C3_zero_is_replaced_by_default :
    payloadTemperature .OpenAI "hi" { temperature := some 0, max_tokens := some 0 } = 7/10 ∧
    (7 : ℚ)/10 ≠ 0 ∧
    payloadMaxTokens .OpenAI "hi" { temperature := some 0, max_tokens := some 0 } = 100 ∧
    (100 : ℚ) ≠ 0 ∧
    payloadTemperature .GoogleAI "hi" { temperature := some 0, max_tokens := some 0 } = 7/10 ∧
    payloadMaxTokens .GoogleAI "hi" { temperature := some 0, max_tokens := some 0 } = 100 :=
  ⟨rfl, by norm_num, rfl, by norm_num, rfl, rfl⟩

/-- C3, amended: for every provider the request body uses
config.temperature when present and non-zero and 0.7 when absent or 0,
and uses config.max_tokens when present and non-zero and 100 when absent
or 0 (the defaulting is by JavaScript truthiness, not by presence). -/
theorem C3_truthy_defaulting (k : ProviderKind) (input : String) (config : ProviderConfig) :
    (∀ t : ℚ, config.temperature = some t → t ≠ 0 →
      payloadTemperature k input config = t) ∧
    (config.temperature = none ∨ config.temperature = some 0 →
      payloadTemperature k input config = 7/10) ∧
    (∀ m : ℚ, config.max_tokens = some m → m ≠ 0 →
      payloadMaxTokens k input config = m) ∧
    (config.max_tokens = none ∨ config.max_tokens = some 0 →
      payloadMaxTokens k input config = 100) := by
  refine ⟨?_, ?_, ?_, ?_⟩
  · intro t ht hz
    cases k <;>
      simp [payloadTemperature, chatPayloadOf, googlePayload, openAIPayload,
        deepSeekPayload, openRouterPayload, groqPayload, openAILikePayload,
        jsOrNum, ht, hz]
  · intro h
    cases h with
    | inl h =>
      cases k <;>
        simp [payloadTemperature, chatPayloadOf, googlePayload, openAIPayload,
          deepSeekPayload, openRouterPayload, groqPayload, openAILikePayload,
          jsOrNum, h]
    | inr h =>
      cases k <;>
        simp [payloadTemperature, chatPayloadOf, googlePayload, openAIPayload,
          deepSeekPayload, openRouterPayload, groqPayload, openAILikePayload,
          jsOrNum, h]
  · intro m hm hz
    cases k <;>
      simp [payloadMaxTokens, chatPayloadOf, googlePayload, openAIPayload,
        deepSeekPayload, openRouterPayload, groqPayload, openAILikePayload,
        jsOrNum, hm, hz]
  · intro h
    cases h with
    | inl h =>
      cases k <;>
        simp [payloadMaxTokens, chatPayloadOf, googlePayload, openAIPayload,
          deepSeekPayload, openRouterPayload, groqPayload, openAILikePayload,
          jsOrNum, h]
    | inr h =>
      cases k <;>
        simp [payloadMaxTokens, chatPayloadOf, googlePayload, openAIPayload,
          deepSeekPayload, openRouterPayload, groqPayload, openAILikePayload,
          jsOrNum, h]

/-- C3, witness: the amended theorem applied at a concrete provider and
config with present non-zero values and at one with absent values. -/
theorem C3_truthy_defaulting_witness :
    payloadTemperature .OpenAI "hi" { temperature := some 1, max_tokens := some 1 } = 1 ∧
    payloadMaxTokens .OpenAI "hi" { temperature := some 1, max_tokens := some 1 } = 1 ∧
    payloadTemperature .GoogleAI "hi" {} = 7/10 ∧
    payloadMaxTokens .GoogleAI "hi" {} = 100 :=
  ⟨(C3_truthy_defaulting .OpenAI "hi" _).1 1 rfl one_ne_zero,
   (C3_truthy_defaulting .OpenAI "hi" _).2.2.1 1 rfl one_ne_zero,
   (C3_truthy_defaulting .GoogleAI "hi" _).2.1 (Or.inl rfl),
   (C3_truthy_defaulting .GoogleAI "hi" _).2.2.2 (Or.inl rfl)⟩

/-- C4, counterexample: the claim says every provider rejects a missing
key with the message naming the provider. OpenAILikeProvider in
src/gas/Code.gs returns the bare message without any provider name. -/
theorem C4_openailike_message_lacks_provider_name :
    (generateResponse .OpenAILike "hi" {} (fun _ => none) throwingOracle).resp
      = { status := 400, error := some "API key is required." } ∧
    "API key is required." ≠ "OpenAILike API key is required." :=
  ⟨rfl, by decide⟩

/-- C4, amended: for every provider, when config.apiKey is not a truthy
string and the script-property lookup under the provider-specific key name
is not a truthy string, generateResponse returns status 400 with the fixed
per-provider message of src/gas/Code.gs (which names the provider for the
five concrete providers, but is the bare message for OpenAILike) and no
network request is sent. -/
theorem C4_missing_key_rejected (k : ProviderKind) (input : String)
    (config : ProviderConfig) (secrets : String → Option String) (oracle : Oracle)
    (hA : strTruthy config.apiKey = false)
    (hS : strTruthy (secrets (secretName k)) = false) :
    generateResponse k input config secrets oracle
      = { resp := { status := 400, error := some (missingKeyMsg k) }, request := none } := by
  unfold generateResponse jsOrStrOpt
  simp [hA, hS]

/-- C4, witness: the amended theorem applied to the OpenAI provider with
an empty config and an empty secret store. -/
theorem C4_missing_key_rejected_witness :
    generateResponse .OpenAI "hi" {} (fun _ => none) throwingOracle
      = { resp := { status := 400, error := some "OpenAI API key is required." },
          request := none } :=
  C4_missing_key_rejected .OpenAI "hi" {} (fun _ => none) throwingOracle rfl rfl

/-- C5, counterexample: the claim says the fallback text on an empty
success envelope contains the provider name. OpenAILikeProvider in
src/gas/Code.gs falls back to a string that names no provider. -/
theorem C5_openailike_fallback_lacks_provider_name :
    (generateResponse .OpenAILike "hi" { apiKey := some "k", baseURL := some "https://llm.example" }
        (fun _ => none)
        { chat := .parsed { error := none, choices := some [] }, gen := .parsed {} }).resp
      = { status := 200, response := some "No response from API." } ∧
    "No response from API." ≠ "No response from OpenAILike." :=
  ⟨rfl, by decide⟩

/-- C5, amended: for every provider, an upstream body that parses, carries
no error field and whose provider-specific generated-text extraction
yields no text produces a 200 response carrying the fixed per-provider
fallback string of src/gas/Code.gs (which names the provider for the five
concrete providers, but is the bare fallback for OpenAILike). -/
theorem C5_fallback_on_absent_text (k : ProviderKind) (input : String)
    (config : ProviderConfig) (secrets : String → Option String)
    (rc : ChatResult) (rg : GenResult)
    (hKey : strTruthy (jsOrStrOpt config.apiKey (secrets (secretName k))) = true)
    (hBase : k = .OpenAILike → strTruthy config.baseURL = true)
    (hce : rc.error = none) (hcx : extractChatText rc = .ok none)
    (hge : rg.error = none) (hgx : extractGenText rg = .ok none) :
    (generateResponse k input config secrets { chat := .parsed rc, gen := .parsed rg }).resp
      = { status := 200, response := some (fallbackText k) } := by
  unfold generateResponse
  cases k with
  | GoogleAI =>
    simp only [hKey, Bool.true_eq_false, if_false]
    unfold googleCall
    simp [hge, hgx, jsOrStr, fallbackText]
  | OpenAILike =>
    simp only [hKey, Bool.true_eq_false, if_false, hBase rfl]
    unfold chatCall
    simp [hce, hcx, jsOrStr, fallbackText]
  | OpenAI =>
    simp only [hKey, Bool.true_eq_false, if_false]
    unfold chatCall
    simp [hce, hcx, jsOrStr, fallbackText]
  | DeepSeek =>
    simp only [hKey, Bool.true_eq_false, if_false]
    unfold chatCall
    simp [hce, hcx, jsOrStr, fallbackText]
  | OpenRouter =>
    simp only [hKey, Bool.true_eq_false, if_false]
    unfold chatCall
    simp [hce, hcx, jsOrStr, fallbackText]
  | Groq =>
    simp only [hKey, Bool.true_eq_false, if_false]
    unfold chatCall
    simp [hce, hcx, jsOrStr, fallbackText]

/-- C5, witness: the amended theorem applied to the OpenAI provider with
an envelope whose choices array is empty. -/
theorem C5_fallback_on_absent_text_witness :
    (generateResponse .OpenAI "hi" { apiKey := some "k" } (fun _ => none)
        { chat := .parsed { error := none, choices := some [] }, gen := .parsed { error := none, candidates := some [] } }).resp
      = { status := 200, response := some "No response from OpenAI." } :=
  C5_fallback_on_absent_text .OpenAI "hi" { apiKey := some "k" } (fun _ => none)
    { error := none, choices := some [] } { error := none, candidates := some [] }
    rfl (fun h => nomatch h) rfl rfl rfl rfl

/-- History equation for query against any delegate whose 200 responses
carry non-empty text: the history is extended by the user and assistant
pair exactly when the returned status is 200, keepHistory holds and the
response text is non-empty, and is untouched otherwise. -/
theorem queryWith_history_eq (st : AgentState) (input : JSInput) (keep : Bool)
    (delegate : String → List Message → Except String ProviderResponse)
    (hdel : ∀ s msgs r, delegate s msgs = .ok r → r.status = 200 → respText r ≠ "") :
    (queryWith st input keep delegate).state.messageHistory =
      if (queryWith st input keep delegate).resp.status = 200 ∧ keep = true
          ∧ respText (queryWith st input keep delegate).resp ≠ ""
      then st.messageHistory
        ++ [⟨"user", inputStr input⟩,
            ⟨"assistant", respText (queryWith st input keep delegate).resp⟩]
      else st.messageHistory := by
  by_cases hv : validInput input = false
  · simp [queryWith, hv, invalidInputResponse]
  · cases hd : delegate (inputStr input) (assembleMessages st (inputStr input)) with
    | error e => simp [queryWith, hv, hd]
    | ok r =>
      by_cases h2 : r.status = 200 ∧ keep = true
      · have hne : respText r ≠ "" := hdel _ _ _ hd h2.1
        have hne2 : ¬(r.response.getD "" = "") := by simpa [respText] using hne
        simp [queryWith, hv, hd, h2, hne, respText, hne2]
      · have h3 : ¬(r.status = 200 ∧ keep = true ∧ respText r ≠ "") :=
          fun h => h2 ⟨h.1, h.2.1⟩
        simp [queryWith, hv, hd, h2, h3]

/-- C2: after Agent.query on an agent bound to any of the six providers,
the history equals the old history extended by the user message for the
input and the assistant message for the returned response text exactly
when the returned status is 200, keepHistory is true and the response
text is non-empty (the two messages appended together, in that order);
in every other case the history is unchanged. The source guards the push
only with status and keepHistory, but every 200 response of the six
providers carries non-empty text, so the two conditions coincide. -/
theorem C2_query_history_update (k : ProviderKind) (config : ProviderConfig)
    (secrets : String → Option String) (oracle : Oracle)
    (st : AgentState) (input : JSInput) (keepHistory : Bool) :
    (agentQuery k config secrets oracle st input keepHistory).state.messageHistory =
      if (agentQuery k config secrets oracle st input keepHistory).resp.status = 200
          ∧ keepHistory = true
          ∧ respText (agentQuery k config secrets oracle st input keepHistory).resp ≠ ""
      then st.messageHistory
        ++ [⟨"user", inputStr input⟩,
            ⟨"assistant", respText (agentQuery k config secrets oracle st input keepHistory).resp⟩]
      else st.messageHistory := by
  unfold agentQuery
  refine queryWith_history_eq st input keepHistory _ ?_
  intro s msgs r h h200
  have hr : (generateResponse k s { config with messages := some msgs } secrets oracle).resp = r :=
    Except.ok.inj h
  rw [← hr] at h200 ⊢
  exact generateResponse_200_respText k s _ secrets oracle h200

/-- After query the stored history is either untouched or extended by one
user message and one assistant message. -/
theorem queryWith_state_cases (st : AgentState) (input : JSInput) (keep : Bool)
    (delegate : String → List Message → Except String ProviderResponse) :
    (queryWith st input keep delegate).state.messageHistory = st.messageHistory ∨
    ∃ s t, (queryWith st input keep delegate).state.messageHistory
      = st.messageHistory ++ [⟨"user", s⟩, ⟨"assistant", t⟩] := by
  by_cases hv : validInput input = false
  · exact Or.inl (by simp [queryWith, hv])
  · cases hd : delegate (inputStr input) (assembleMessages st (inputStr input)) with
    | error e => exact Or.inl (by simp [queryWith, hv, hd])
    | ok r =>
      by_cases h2 : r.status = 200 ∧ keep = true
      · refine Or.inr ⟨inputStr input, r.response.getD "", ?_⟩
        simp [queryWith, hv, hd, h2]
      · exact Or.inl (by simp [queryWith, hv, hd, h2])

/-- The conversation-state invariant of the specification: the stored
history has even length and holds no system-role message. -/
def historyInvariant (st : AgentState) : Prop :=
  Even st.messageHistory.length ∧ ∀ m ∈ st.messageHistory, m.role ≠ "system"

/-- Every public operation preserves the history invariant. -/
theorem applyOp_preserves_invariant (k : ProviderKind) (config : ProviderConfig)
    (secrets : String → Option String) (st : AgentState) (op : AgentOp)
    (h : historyInvariant st) :
    historyInvariant (applyOp k config secrets st op) := by
  cases op with
  | query input keep oracle =>
    have hc := queryWith_state_cases st input keep (fun s msgs =>
      .ok (generateResponse k s { config with messages := some msgs } secrets oracle).resp)
    simp only [applyOp, agentQuery]
    rcases hc with heq | ⟨s, t, heq⟩
    · exact ⟨heq ▸ h.1, heq ▸ h.2⟩
    · constructor
      · rw [heq]
        have hlen : (st.messageHistory ++ [(⟨"user", s⟩ : Message), ⟨"assistant", t⟩]).length
            = st.messageHistory.length + 2 := by simp
        rw [hlen]
        exact h.1.add even_two
      · rw [heq]
        intro m hm
        rcases List.mem_append.1 hm with hm | hm
        · exact h.2 m hm
        · simp only [List.mem_cons, List.not_mem_nil, or_false] at hm
          rcases hm with rfl | rfl <;> simp
  | clearHistory =>
    exact ⟨by simp [applyOp], by simp [applyOp]⟩
  | setSystemPrompt p =>
    cases p with
    | str s => exact ⟨by simpa [applyOp] using h.1, by simpa [applyOp] using h.2⟩
    | nonString => exact h
  | getHistory => exact h

/-- Folding any operation sequence preserves the history invariant. -/
theorem foldl_preserves_invariant (k : ProviderKind) (config : ProviderConfig)
    (secrets : String → Option String) :
    ∀ (ops : List AgentOp) (st : AgentState), historyInvariant st →
      historyInvariant (ops.foldl (applyOp k config secrets) st) := by
  intro ops
  induction ops with
  | nil => intro st h; simpa using h
  | cons op rest ih =>
    intro st h
    exact ih _ (applyOp_preserves_invariant k config secrets st op h)

/-- C6: from the empty history at creation, every sequence of public
operations (query, clearHistory, setSystemPrompt, getHistory) leaves the
agent with a history of even length containing no system-role message. -/
theorem C6_history_even_and_no_system (k : ProviderKind) (config : ProviderConfig)
    (secrets : String → Option String) (ops : List AgentOp) :
    historyInvariant (runOps k config secrets ops) := by
  unfold runOps
  refine foldl_preserves_invariant k config secrets ops (initialAgentState config) ?_
  constructor <;> simp [initialAgentState]

/-- C6, witness: the invariant theorem applied to a concrete operation
sequence containing one query, one clearHistory and one prompt change. -/
theorem C6_history_even_and_no_system_witness :
    historyInvariant (runOps .OpenAI {} (fun _ => none)
      [.query (.str "hi") true throwingOracle, .setSystemPrompt (.str "p"), .clearHistory]) :=
  C6_history_even_and_no_system .OpenAI {} (fun _ => none)
    [.query (.str "hi") true throwingOracle, .setSystemPrompt (.str "p"), .clearHistory]

/-- C7: query is total for every behaviour of the bound provider: for any
delegate (including one that throws), the call returns the 400 validation
response on invalid input, otherwise the response the delegate returned,
otherwise the 500 conversion of the exception the delegate raised — a
complete case split, so query always yields a ProviderResponse. -/
theorem C7_query_total (st : AgentState) (input : JSInput) (keep : Bool)
    (delegate : String → List Message → Except String ProviderResponse) :
    (validInput input = false ∧
      (queryWith st input keep delegate).resp = invalidInputResponse ∧
      (queryWith st input keep delegate).state = st) ∨
    (∃ r, delegate (inputStr input) (assembleMessages st (inputStr input)) = .ok r ∧
      (queryWith st input keep delegate).resp = r) ∨
    (∃ e, delegate (inputStr input) (assembleMessages st (inputStr input)) = .error e ∧
      (queryWith st input keep delegate).resp
        = { status := 500, error := some ("Error during query execution: " ++ e) } ∧
      (queryWith st input keep delegate).state = st) := by
  by_cases hv : validInput input = false
  · exact Or.inl ⟨hv, by simp [queryWith, hv], by simp [queryWith, hv]⟩
  · cases hd : delegate (inputStr input) (assembleMessages st (inputStr input)) with
    | error e =>
      refine Or.inr (Or.inr ⟨e, rfl, ?_, ?_⟩) <;> simp [queryWith, hv, hd]
    | ok r =>
      refine Or.inr (Or.inl ⟨r, rfl, ?_⟩)
      by_cases h2 : r.status = 200 ∧ keep = true <;> simp [queryWith, hv, hd, h2]

/-- C8: on an input that is not a non-empty string, query returns exactly
the fixed 400 response, never calls the provider, and leaves the state
untouched. -/
theorem C8_invalid_input_rejected (k : ProviderKind) (config : ProviderConfig)
    (secrets : String → Option String) (oracle : Oracle)
    (st : AgentState) (keep : Bool) (input : JSInput)
    (h : validInput input = false) :
    agentQuery k config secrets oracle st input keep =
      { resp := { status := 400, error := some "Input must be a non-empty string." }
        state := st, invoked := false } := by
  unfold agentQuery
  simp [queryWith, h, invalidInputResponse]

/-- C8, witness: the rejection theorem applied to the empty-string input
and a concrete agent. -/
theorem C8_invalid_input_rejected_witness :
    agentQuery .OpenAI {} (fun _ => none) throwingOracle ⟨[], ""⟩ (.str "") true =
      { resp := { status := 400, error := some "Input must be a non-empty string." }
        state := ⟨[], ""⟩, invoked := false } :=
  C8_invalid_input_rejected .OpenAI {} (fun _ => none) throwingOracle ⟨[], ""⟩ true (.str "")
    (by decide)

/-- C9: the claim says createAgent throws DuplicateName exactly for
already-registered names and UnknownProvider exactly for provider kinds
outside the fixed six. Both registries are plain object literals, and a
truthiness read on them also sees the properties inherited from the base
object prototype: on a fresh registry the never-registered name
constructor is reported as a duplicate, and the non-existent provider kind
hasOwnProperty passes the registration check, so the agent is created. -/
theorem C9_prototype_chain_breaks_registry_checks :
    createAgent [] (.str "constructor") "OpenAI" = .duplicateName ∧
    createAgent [] (.str "agentA") "hasOwnProperty" = .created ["agentA"] ∧
    "constructor" ∉ ([] : List String) ∧
    "hasOwnProperty" ∉ providerKindNames := by
  refine ⟨by decide, by decide, by decide, by decide⟩

/-- C10, counterexample: getHistory returns a shallow copy, so the
message objects are shared. Concretely: the agent history is the array at
reference 0 holding message reference 0; getHistory allocates the fresh
array reference 1 with the same content; mutating the content of the
message object reached through the returned copy changes what the agent
subsequently reports, refuting the claim that caller mutation of the
elements leaves the stored history unchanged. -/
theorem C10_element_mutation_reaches_agent_history :
    (getHistoryAlloc ⟨[⟨"user", "hello"⟩], [[0]]⟩ 0).2 = 1 ∧
    readArray (getHistoryAlloc ⟨[⟨"user", "hello"⟩], [[0]]⟩ 0).1 1 = [0] ∧
    viewHistory ⟨[⟨"user", "hello"⟩], [[0]]⟩ 0 = [⟨"user", "hello"⟩] ∧
    viewHistory (setMsgContent (getHistoryAlloc ⟨[⟨"user", "hello"⟩], [[0]]⟩ 0).1 0 "tampered") 0
      = [⟨"user", "tampered"⟩] ∧
    ([(⟨"user", "tampered"⟩ : Message)] ≠ [⟨"user", "hello"⟩]) := by
  refine ⟨by decide, by decide, by decide, by decide, by decide⟩

/-- Reading a freshly appended element of a list of arrays. -/
theorem getD_append_self (l : List (List Nat)) (x : List Nat) :
    (l ++ [x]).getD l.length [] = x := by
  rw [List.getD_append_right _ _ _ _ (le_refl _)]
  simp

/-- Appending to a list of arrays does not change reads below the old
length. -/
theorem getD_append_lt (l : List (List Nat)) (x : List Nat) (a : Nat)
    (ha : a < l.length) :
    (l ++ [x]).getD a [] = l.getD a [] :=
  List.getD_append _ _ _ _ ha

/-- Setting one index of a list of arrays does not change reads at a
different index. -/
theorem getD_set_ne (l : List (List Nat)) (b a : Nat) (x : List Nat)
    (hne : b ≠ a) :
    (l.set b x).getD a [] = l.getD a [] := by
  rw [List.getD_eq_getD_get?, List.getD_eq_getD_get?, List.get?_eq_getElem?,
    List.get?_eq_getElem?, List.getElem?_set_ne hne]

/-- The fresh array getHistory returns holds the same references as the
stored history array. -/
theorem readArray_alloc_new (h : Heap) (a : Nat) :
    readArray (getHistoryAlloc h a).1 (getHistoryAlloc h a).2 = readArray h a := by
  show (h.arrays ++ [readArray h a]).getD h.arrays.length [] = readArray h a
  exact getD_append_self _ _

/-- Allocating the copy does not change reads of previously existing
arrays. -/
theorem readArray_alloc_old (h : Heap) (a c : Nat) (hc : c < h.arrays.length) :
    readArray (getHistoryAlloc h a).1 c = readArray h c := by
  show (h.arrays ++ [readArray h a]).getD c [] = h.arrays.getD c []
  exact getD_append_lt _ _ _ hc

/-- Mutating one array object does not change reads of a different array
object. -/
theorem readArray_set_ne (hp : Heap) (b a i r : Nat) (hba : b ≠ a) :
    readArray (setArrayElem hp b i r) a = readArray hp a := by
  show (hp.arrays.set b ((readArray hp b).set i r)).getD a [] = hp.arrays.getD a []
  exact getD_set_ne _ _ _ _ hba

/-- C10, amended: getHistory returns a fresh array object (a shallow
defensive copy): the returned reference is distinct from the stored one,
its content equals the stored history, a second call with no intervening
mutation returns an equal sequence, and caller mutation of the returned
array object itself never affects the agent's stored history; only
in-place mutation of the shared message objects does. -/
theorem C10_shallow_copy_guarantees (h : Heap) (a : Nat) (ha : a < h.arrays.length) :
    (getHistoryAlloc h a).2 ≠ a ∧
    viewHistory (getHistoryAlloc h a).1 (getHistoryAlloc h a).2 = viewHistory h a ∧
    viewHistory (getHistoryAlloc (getHistoryAlloc h a).1 a).1
        (getHistoryAlloc (getHistoryAlloc h a).1 a).2
      = viewHistory (getHistoryAlloc h a).1 (getHistoryAlloc h a).2 ∧
    (∀ i r, viewHistory (setArrayElem (getHistoryAlloc h a).1 (getHistoryAlloc h a).2 i r) a
      = viewHistory h a) := by
  refine ⟨ha.ne', ?_, ?_, ?_⟩
  · show (readArray (getHistoryAlloc h a).1 (getHistoryAlloc h a).2).map
        (readMsg (getHistoryAlloc h a).1) = (readArray h a).map (readMsg h)
    rw [readArray_alloc_new]
    rfl
  · show (readArray (getHistoryAlloc (getHistoryAlloc h a).1 a).1
          (getHistoryAlloc (getHistoryAlloc h a).1 a).2).map
        (readMsg (getHistoryAlloc (getHistoryAlloc h a).1 a).1)
      = (readArray (getHistoryAlloc h a).1 (getHistoryAlloc h a).2).map
          (readMsg (getHistoryAlloc h a).1)
    rw [readArray_alloc_new, readArray_alloc_new, readArray_alloc_old h a a ha]
    rfl
  · intro i r
    show (readArray (setArrayElem (getHistoryAlloc h a).1 (getHistoryAlloc h a).2 i r) a).map
        (readMsg (setArrayElem (getHistoryAlloc h a).1 (getHistoryAlloc h a).2 i r))
      = (readArray h a).map (readMsg h)
    rw [readArray_set_ne _ _ _ _ _ (show (getHistoryAlloc h a).2 ≠ a from ha.ne'),
      readArray_alloc_old h a a ha]
    rfl

/-- C10, witness: the amended shallow-copy theorem applied to a concrete
one-message heap. -/
theorem C10_shallow_copy_guarantees_witness :
    (getHistoryAlloc ⟨[⟨"user", "hello"⟩], [[0]]⟩ 0).2 ≠ 0 ∧
    viewHistory (getHistoryAlloc ⟨[⟨"user", "hello"⟩], [[0]]⟩ 0).1
        (getHistoryAlloc ⟨[⟨"user", "hello"⟩], [[0]]⟩ 0).2
      = viewHistory ⟨[⟨"user", "hello"⟩], [[0]]⟩ 0 ∧
    viewHistory (getHistoryAlloc (getHistoryAlloc ⟨[⟨"user", "hello"⟩], [[0]]⟩ 0).1 0).1
        (getHistoryAlloc (getHistoryAlloc ⟨[⟨"user", "hello"⟩], [[0]]⟩ 0).1 0).2
      = viewHistory (getHistoryAlloc ⟨[⟨"user", "hello"⟩], [[0]]⟩ 0).1
          (getHistoryAlloc ⟨[⟨"user", "hello"⟩], [[0]]⟩ 0).2 ∧
    (∀ i r, viewHistory
        (setArrayElem (getHistoryAlloc ⟨[⟨"user", "hello"⟩], [[0]]⟩ 0).1
          (getHistoryAlloc ⟨[⟨"user", "hello"⟩], [[0]]⟩ 0).2 i r) 0
      = viewHistory ⟨[⟨"user", "hello"⟩], [[0]]⟩ 0) :=
  C10_shallow_copy_guarantees ⟨[⟨"user", "hello"⟩], [[0]]⟩ 0 (by decide)

end GasAgent
